import Mathlib

/-!
Verification development for the Telegram relay/verification bot.

The Python sources are shallowly embedded as follows:
* machine floats become rationals (`ℚ`); every numeric value the program
  stores is the result of `round(·, 2)`, and all comparisons in the claims
  use margins (`1e-6`, `0.1`) that dwarf float error;
* the pseudo-random draws of `random.uniform` / `random.choice` become
  explicit input lists ("draw streams"), and `random.shuffle` becomes
  universal quantification over permutations of the returned list;
* the SQL tables become finite maps `Int → Option row`, and each SQL
  statement becomes the corresponding pointwise update;
* `await`ed side effects that can fail (`edit_message_text`,
  `send_message`, `get_chat`) become explicit oracle parameters recording
  whether the transport call succeeded.
-/

namespace ChatBot

/-! ## Embedding of src/verification.py -/

/-- Constant `OPTION_COUNT` (src/verification.py line 6). -/
def OPTION_COUNT : Nat := 4

/-- Constant `MIN_ANSWER` (src/verification.py line 7). -/
def MIN_ANSWER : ℚ := 1/100

/-- Constant `MAX_ANSWER` (src/verification.py line 8). -/
def MAX_ANSWER : ℚ := 100

/-- Constant `MIN_OPTION_DIFF` (src/verification.py line 9). -/
def MIN_OPTION_DIFF : ℚ := 1/10

/-- Constant `MAX_RETRIES` (src/verification.py line 10). -/
def MAX_RETRIES : Nat := 100

/-- The comparison epsilon `1e-6` used by `handle_verification_button`
(src/telegram_bot.py line 88). -/
def EPS : ℚ := 1/1000000

/-- Python's `round(x, 2)`.  Mathlib's `round` rounds half away from zero
upward while Python rounds half to even; no claim in this development
depends on the behaviour at exact ties, and no concrete input used below
hits a tie. -/
def round2 (x : ℚ) : ℚ := ((round (x * 100) : ℤ) : ℚ) / 100

/-- The acceptance test of the candidate `wrong` option inside the `while`
loop of `MathVerification._generate_options` (src/verification.py lines
124-128): `wrong not in options and abs(wrong - answer) >= MIN_OPTION_DIFF
and MIN_ANSWER <= abs(wrong) <= MAX_ANSWER`.  Note the distance test is
against `answer` only, not against the other options already drawn. -/
def accept_option (answer : ℚ) (options : List ℚ) (wrong : ℚ) : Bool :=
  decide (wrong ∉ options) && decide (MIN_OPTION_DIFF ≤ |wrong - answer|) &&
    decide (MIN_ANSWER ≤ |wrong|) && decide (|wrong| ≤ MAX_ANSWER)

/-- The `while len(options) < OPTION_COUNT` loop of
`MathVerification._generate_options` (src/verification.py lines 121-129).
`draws` is the stream of values produced by `random.uniform(-1.0, 1.0)`;
the Python loop draws as many as it needs, so exhausting the finite stream
models the loop not terminating and is returned as `none`. -/
def generate_options_loop (answer : ℚ) : List ℚ → List ℚ → Option (List ℚ)
  | options, [] =>
      if OPTION_COUNT ≤ options.length then some options else none
  | options, offset :: draws =>
      if OPTION_COUNT ≤ options.length then some options
      else
        if accept_option answer options (round2 (answer + offset)) then
          generate_options_loop answer (options ++ [round2 (answer + offset)]) draws
        else
          generate_options_loop answer options draws

/-- Embeds `MathVerification._generate_options` (src/verification.py lines
116-132), up to the final `random.shuffle`: the loop starts from
`options = [answer]` and the caller receives some permutation of the
returned list (theorems below quantify over that permutation). -/
def generate_options (answer : ℚ) (draws : List ℚ) : Option (List ℚ) :=
  generate_options_loop answer [answer] draws

/-- One candidate draw of the retry loop of
`MathVerification.generate_question` (src/verification.py lines 146-169):
the question string rendered by `_generate_question_string`, the value of
`_compute_answer` (a float expression through `math.sqrt`; abstracted here
as the resulting rounded rational), and the offsets subsequently consumed
by `_generate_options`. -/
structure QuestionDraw where
  question : String
  answer : ℚ
  offsets : List ℚ
deriving Repr

/-- The `while retries < MAX_RETRIES` loop of
`MathVerification.generate_question` (src/verification.py lines 145-171).
A `none` attempt models a draw of `_generate_problem_components` /
`_compute_answer` that raised `ZeroDivisionError`/`OverflowError`/
`ValueError` (line 167); an in-range answer proceeds to
`_generate_options`, otherwise the draw is rejected (line 159) and a retry
is consumed.  Exhausting the fuel models the final `RuntimeError`. -/
def generate_question_loop : Nat → List (Option QuestionDraw) → Option (String × ℚ × List ℚ)
  | 0, _ => none
  | _ + 1, [] => none
  | fuel + 1, none :: rest => generate_question_loop fuel rest
  | fuel + 1, some d :: rest =>
      if MAX_ANSWER < |d.answer| ∨ |d.answer| < MIN_ANSWER then
        generate_question_loop fuel rest
      else
        match generate_options d.answer d.offsets with
        | some options => some (d.question, d.answer, options)
        | none => generate_question_loop fuel rest

/-- Embeds `MathVerification.generate_question` (src/verification.py lines
134-171) applied to a stream of prepared random draws. -/
def generate_question (attempts : List (Option QuestionDraw)) : Option (String × ℚ × List ℚ) :=
  generate_question_loop MAX_RETRIES attempts

/-- Invariant maintained by the `_generate_options` loop: the accumulated
option list is duplicate-free, contains the correct answer, every other
entry is at least `MIN_OPTION_DIFF` away from the answer, and every entry
has magnitude in `[MIN_ANSWER, MAX_ANSWER]`. -/
def OptionsInv (answer : ℚ) (options : List ℚ) : Prop :=
  options.Nodup ∧ answer ∈ options ∧
    (∀ x ∈ options, x = answer ∨ MIN_OPTION_DIFF ≤ |x - answer|) ∧
    (∀ x ∈ options, MIN_ANSWER ≤ |x| ∧ |x| ≤ MAX_ANSWER)

theorem accept_option_eq_true {answer wrong : ℚ} {options : List ℚ}
    (h : accept_option answer options wrong = true) :
    wrong ∉ options ∧ MIN_OPTION_DIFF ≤ |wrong - answer| ∧
      MIN_ANSWER ≤ |wrong| ∧ |wrong| ≤ MAX_ANSWER := by
  simp only [accept_option, Bool.and_eq_true, decide_eq_true_eq] at h
  exact ⟨h.1.1.1, h.1.1.2, h.1.2, h.2⟩

theorem generate_options_loop_spec (answer : ℚ) :
    ∀ (draws options opts : List ℚ), OptionsInv answer options →
      options.length ≤ OPTION_COUNT →
      generate_options_loop answer options draws = some opts →
      OptionsInv answer opts ∧ opts.length = OPTION_COUNT := by
  intro draws
  induction draws with
  | nil =>
      intro options opts hinv hlen h
      rw [generate_options_loop] at h
      split at h
      · cases h
        exact ⟨hinv, le_antisymm hlen (by assumption)⟩
      · cases h
  | cons offset draws ih =>
      intro options opts hinv hlen h
      rw [generate_options_loop] at h
      split at h
      · cases h
        exact ⟨hinv, le_antisymm hlen (by assumption)⟩
      · rename_i hshort
        split at h
        · rename_i hacc
          obtain ⟨hmem, hfar, hlo, hhi⟩ := accept_option_eq_true hacc
          refine ih (options ++ [round2 (answer + offset)]) opts ?_ ?_ h
          · obtain ⟨hnd, hans, hf, hb⟩ := hinv
            refine ⟨?_, ?_, ?_, ?_⟩
            · simp [List.nodup_append, hnd, hmem]
            · exact List.mem_append_left _ hans
            · intro x hx
              rcases List.mem_append.mp hx with hx | hx
              · exact hf x hx
              · right
                simp only [List.mem_singleton] at hx
                exact hx ▸ hfar
            · intro x hx
              rcases List.mem_append.mp hx with hx | hx
              · exact hb x hx
              · simp only [List.mem_singleton] at hx
                exact hx ▸ ⟨hlo, hhi⟩
          · have : options.length + 1 ≤ OPTION_COUNT := Nat.lt_of_not_le hshort
            simpa using this
        · exact ih options opts hinv hlen h

theorem generate_options_spec {answer : ℚ} {draws opts : List ℚ}
    (hans : MIN_ANSWER ≤ |answer| ∧ |answer| ≤ MAX_ANSWER)
    (h : generate_options answer draws = some opts) :
    OptionsInv answer opts ∧ opts.length = OPTION_COUNT := by
  refine generate_options_loop_spec answer draws [answer] opts ?_ (by simp [OPTION_COUNT]) h
  refine ⟨List.nodup_singleton _, List.mem_singleton_self _, ?_, ?_⟩
  · intro x hx
    simp only [List.mem_singleton] at hx
    exact Or.inl hx
  · intro x hx
    simp only [List.mem_singleton] at hx
    exact hx ▸ hans

/-- In any list satisfying the loop invariant, the answer is the unique
element within `EPS` of the answer. -/
theorem optionsInv_filter_eps {answer : ℚ} {opts : List ℚ}
    (hinv : OptionsInv answer opts) :
    (opts.filter (fun x => decide (|x - answer| < EPS))).length = 1 := by
  obtain ⟨hnd, hans, hfar, _⟩ := hinv
  have hcong : opts.filter (fun x => decide (|x - answer| < EPS)) =
      opts.filter (fun x => x == answer) := by
    refine List.filter_congr ?_
    intro x hx
    rcases hfar x hx with hx' | hx'
    · subst hx'
      simp [EPS]
    · have hge : ¬ |x - answer| < EPS := by
        refine not_lt.mpr (le_trans ?_ hx')
        norm_num [EPS, MIN_OPTION_DIFF]
      have hne : x ≠ answer := by
        intro hxa
        rw [hxa] at hx'
        simp only [sub_self, abs_zero] at hx'
        norm_num [MIN_OPTION_DIFF] at hx'
      simp [hge, hne]
  rw [hcong, ← List.countP_eq_length_filter]
  have := List.count_eq_one_of_mem hnd hans
  simpa [List.count] using this

theorem generate_question_loop_spec :
    ∀ (fuel : Nat) (attempts : List (Option QuestionDraw))
      (q : String) (ans : ℚ) (opts : List ℚ),
      generate_question_loop fuel attempts = some (q, ans, opts) →
      (MIN_ANSWER ≤ |ans| ∧ |ans| ≤ MAX_ANSWER) ∧
        ∃ offsets, generate_options ans offsets = some opts := by
  intro fuel
  induction fuel with
  | zero => intro attempts q ans opts h; cases h
  | succ fuel ih =>
      intro attempts q ans opts h
      match attempts with
      | [] => cases h
      | none :: rest => exact ih rest q ans opts h
      | some d :: rest =>
          rw [generate_question_loop] at h
          split at h
          · exact ih rest q ans opts h
          · rename_i hrange
            push_neg at hrange
            cases hgen : generate_options d.answer d.offsets with
            | none => rw [hgen] at h; exact ih rest q ans opts h
            | some options =>
                rw [hgen] at h
                cases h
                exact ⟨⟨hrange.2, hrange.1⟩, d.offsets, hgen⟩

/-! ## Embedding of src/database.py -/

/-- A row of the `users` table (src/database.py lines 30-38 and the
`CREATE TABLE users` statement at lines 109-119).  Timestamps are
abstracted to `Nat` ticks. -/
structure UserRow where
  user_id : Int
  nickname : String
  username : Option String
  registration_time : Nat
  is_blocked : Bool := false
  block_reason : Option String := none
  block_time : Option Nat := none
deriving Repr, DecidableEq

/-- A row of the `verification` table (src/database.py lines 54-63 and the
`CREATE TABLE verification` statement at lines 121-132). -/
structure VerificationRow where
  user_id : Int
  question : String
  answer : ℚ
  options : List ℚ
  verified : Bool
  verification_time : Nat
  error_count : Nat := 0
  message_id : Option Nat := none
deriving Repr, DecidableEq

/-- The persistent store: the three tables keyed by `user_id` plus the
`verification_enabled` settings row (src/database.py lines 104-180).
`conversations` maps a user to its `last_message_time`;
`verification_enabled = none` models an absent settings row. -/
structure DBState where
  users : Int → Option UserRow
  verification : Int → Option VerificationRow
  conversations : Int → Option Nat
  verification_enabled : Option Bool

/-- Embeds `Database.get_verification_enabled` (src/database.py lines 182-193):
`bool(result) if result is not None else True`. -/
def get_verification_enabled (db : DBState) : Bool :=
  match db.verification_enabled with
  | some b => b
  | none => true

/-- Embeds `Database.is_blocked` (src/database.py lines 374-381): `bool(result)`
where a missing row fetches `None`, i.e. not blocked. -/
def is_blocked (db : DBState) (uid : Int) : Bool :=
  match db.users uid with
  | some u => u.is_blocked
  | none => false

/-- Embeds `Database.is_verified` (src/database.py lines 503-510). -/
def is_verified (db : DBState) (uid : Int) : Bool :=
  match db.verification uid with
  | some v => v.verified
  | none => false

/-- Embeds `Database.update_verification` (src/database.py lines 463-482): an SQL
`UPDATE ... WHERE user_id = $1`, which writes only when the row exists. -/
def update_verification (db : DBState) (v : VerificationRow) : DBState :=
  { db with verification := fun i =>
      if i = v.user_id then (db.verification i).map (fun _ => v) else db.verification i }

/-- Embeds `Database.add_verification` (src/database.py lines 433-461): an upsert
(`INSERT ... ON CONFLICT (user_id) DO UPDATE`). -/
def add_verification (db : DBState) (v : VerificationRow) : DBState :=
  { db with verification := fun i =>
      if i = v.user_id then some v else db.verification i }

/-- Embeds `Database.add_user` (src/database.py lines 294-306): insert, or update
nickname/username on conflict. -/
def add_user (db : DBState) (u : UserRow) : DBState :=
  { db with users := fun i =>
      if i = u.user_id then
        match db.users i with
        | some old => some { old with nickname := u.nickname, username := u.username }
        | none => some u
      else db.users i }

/-- Embeds `Database.update_conversation` (src/database.py lines 521-531): upsert
of `last_message_time`. -/
def update_conversation (db : DBState) (uid : Int) (now : Nat) : DBState :=
  { db with conversations := fun i => if i = uid then some now else db.conversations i }

/-- Embeds `Database.block_user` (src/database.py lines 308-330): set the block
flag, reason (truncated to 255 characters) and time on the `users` row,
and reset the `verification` row to `verified = FALSE, error_count = 0,
message_id = NULL`; both statements are `UPDATE`s, so a missing row is
left missing.  The `reason` argument is nonempty at every call site,
satisfying the guard at line 310. -/
def block_user (db : DBState) (uid : Int) (reason : String) (now : Nat) : DBState :=
  { db with
    users := fun i =>
      if i = uid then
        (db.users i).map (fun u =>
          { u with is_blocked := true, block_reason := some (reason.take 255),
                   block_time := some now })
      else db.users i
    verification := fun i =>
      if i = uid then
        (db.verification i).map (fun v =>
          { v with verified := false, error_count := 0, message_id := none })
      else db.verification i }

/-- The fresh verification row inserted on unban, shared verbatim by
`Database.unblock_user` (src/database.py lines 349-358) and
`TelegramBot.unban_user` (src/telegram_bot.py lines 755-764). -/
def fresh_verification (uid : Int) (now : Nat) : VerificationRow :=
  { user_id := uid, question := "", answer := 0, options := [], verified := false,
    verification_time := now, error_count := 0, message_id := none }

/-- The `UPDATE users SET is_blocked = FALSE, block_reason = NULL,
block_time = NULL WHERE user_id = $1` statement, issued verbatim by
`Database.unblock_user` (src/database.py lines 360-367) and
`TelegramBot.unban_user` (src/telegram_bot.py lines 767-776). -/
def clear_block (db : DBState) (uid : Int) : DBState :=
  { db with users := fun i =>
      if i = uid then
        (db.users i).map (fun u =>
          { u with is_blocked := false, block_reason := none, block_time := none })
      else db.users i }

/-- The `DELETE FROM conversations WHERE user_id = $1` statement of
`Database.unblock_user` (src/database.py lines 368-371). -/
def delete_conversation (db : DBState) (uid : Int) : DBState :=
  { db with conversations := fun i => if i = uid then none else db.conversations i }

/-- Embeds `Database.unblock_user` (src/database.py lines 332-372): fails with
`ValueError` (`none`) when the user does not exist; otherwise deletes the
verification row, inserts a fresh one (the delete followed by the upsert
collapses to the upsert), clears the block fields and deletes the
`conversations` row. -/
def unblock_user (db : DBState) (uid : Int) (now : Nat) : Option DBState :=
  match db.users uid with
  | none => none
  | some _ =>
      some (delete_conversation
        (clear_block (add_verification db (fresh_verification uid now)) uid) uid)

/-- Embeds `Database.get_recent_users` (src/database.py lines 392-403): join
`users` with `verification`, keep `verified = TRUE`, order by
`verification_time DESC`, `LIMIT 3`.  The tables are modelled as row
lists; `user_id` is the primary key of `verification`, so the join mate is
the unique matching row.  The result is kept paired with the sort key so
that the ordering is visible in the theorems. -/
def get_recent_users_rows (users : List UserRow) (verifs : List VerificationRow) :
    List (UserRow × Nat) :=
  ((users.filterMap (fun u =>
      (verifs.find? (fun v => v.user_id == u.user_id)).bind
        (fun v => if v.verified then some (u, v.verification_time) else none))).mergeSort
    (fun a b => decide (b.2 ≤ a.2))).take 3

/-- Embeds `Database.get_recent_users`, projected to the selected `u.*`. -/
def get_recent_users (users : List UserRow) (verifs : List VerificationRow) : List UserRow :=
  (get_recent_users_rows users verifs).map Prod.fst

/-- Comparison for `ORDER BY block_time DESC` on a nullable column: Postgres sorts `NULL`
first in descending order. -/
def block_time_desc (x y : Option Nat) : Bool :=
  match x, y with
  | none, _ => true
  | some _, none => false
  | some a, some b => decide (b ≤ a)

/-- Embeds `Database.get_blacklist` (src/database.py lines 405-415): the users
with `is_blocked = TRUE`, ordered by `block_time DESC`, `LIMIT 5`. -/
def get_blacklist (users : List UserRow) : List UserRow :=
  ((users.filter (fun u => u.is_blocked)).mergeSort
      (fun a b => block_time_desc a.block_time b.block_time)).take 5

/-! ## Embedding of src/telegram_bot.py -/

/-- The `reason` strings passed to `BanHandler.handle_verification_failure`
("wrong_answer", "timeout", "max_attempts"); the reason only selects the
prompt text, never the state transition. -/
inductive FailReason where
  | wrong_answer
  | timeout
  | max_attempts
deriving Repr, DecidableEq

/-- Per-invocation inputs of `BanHandler.handle_verification_failure`
(src/telegram_bot.py lines 311-403) that come from outside the state: the
freshly generated question (`MathVerification.generate_question`, line
323), the wall clock, and whether `edit_message_text` of the challenge
message succeeded (`edit_ok = false` models `Forbidden`/`BadRequest` at
line 363). -/
structure FailureOracle where
  new_question : String
  new_answer : ℚ
  new_options : List ℚ
  now : Nat
  edit_ok : Bool
deriving Repr

/-- Observable outcome of the verification button / failure handlers. -/
inductive VerifyOutcome where
  | no_record
  | already_verified
  | expired_message
  | success
  | retry
  | banned_exhausted
  | banned_unreachable
  | unauthorized
deriving Repr, DecidableEq

/-- Embeds `BanHandler.handle_verification_failure` (src/telegram_bot.py lines
311-403).  `v` is the verification row the caller read inside the
transaction (so `v = db.verification uid` up to the key invariant).  The
in-memory `error_count` is incremented; with attempts left the question is
regenerated and written back (or, if editing the challenge message fails,
the user is blocked with reason "用户禁用机器人或消息不可编辑" and the
increment is never persisted); with no attempt left `ban_user` runs with
`needs_confirmation=False` and reason "验证失败三次", which blocks only a
user that exists and is not already blocked (lines 223-235). -/
def handle_verification_failure (db : DBState) (uid : Int) (v : VerificationRow)
    (_reason : FailReason) (o : FailureOracle) : DBState × VerifyOutcome :=
  if 0 < 3 - (v.error_count + 1) then
    if o.edit_ok then
      (update_verification db
        { v with error_count := v.error_count + 1, question := o.new_question,
                 answer := o.new_answer, options := o.new_options,
                 verification_time := o.now },
        .retry)
    else
      (block_user db uid "用户禁用机器人或消息不可编辑" o.now, .banned_unreachable)
  else
    match db.users uid with
    | none => (db, .banned_exhausted)
    | some u =>
        if u.is_blocked then (db, .banned_exhausted)
        else (block_user db uid "验证失败三次" o.now, .banned_exhausted)

/-- Embeds `VerificationHandler.handle_verification_button` (src/telegram_bot.py
lines 56-162): inside a transaction, re-read the row; bail out when it is
missing, when the user is already verified (a late duplicate press — the
message is re-edited but nothing is written and no success notification is
sent), or when the stored `message_id` differs from the message the button
was attached to.  A match within `1e-6` sets `verified`, stamps the time,
clears `message_id` and writes the row back; a mismatch delegates to
`handle_verification_failure` with reason "wrong_answer". -/
def handle_verification_button (db : DBState) (uid : Int) (msg_id : Nat)
    (chosen : ℚ) (now : Nat) (o : FailureOracle) : DBState × VerifyOutcome :=
  match db.verification uid with
  | none => (db, .no_record)
  | some v =>
      if v.verified then (db, .already_verified)
      else if v.message_id ≠ some msg_id then (db, .expired_message)
      else if |v.answer - chosen| < EPS then
        (update_verification db
          { v with verified := true, verification_time := now, message_id := none },
          .success)
      else
        handle_verification_failure db uid v .wrong_answer o

/-- The `verify_` branch of `TelegramBot.button` (src/telegram_bot.py lines
905-919): the callback data carries the target user id and the chosen
value; a presser whose id differs from the target is turned away before
`handle_verification_button` is ever invoked. -/
def button_verify (db : DBState) (presser target : Int) (msg_id : Nat)
    (chosen : ℚ) (now : Nat) (o : FailureOracle) : DBState × VerifyOutcome :=
  if presser ≠ target then (db, .unauthorized)
  else handle_verification_button db target msg_id chosen now o

/-- Embeds `TelegramBot.timeout_verification` (src/telegram_bot.py lines 661-684):
inside a transaction, skip when the row is gone or the user verified in
the meantime, otherwise treat as a failure with reason "timeout".  Returns
`none` for the skip (no visible outcome). -/
def timeout_verification (db : DBState) (uid : Int) (o : FailureOracle) :
    DBState × Option VerifyOutcome :=
  match db.verification uid with
  | none => (db, none)
  | some v =>
      if is_verified db uid then (db, none)
      else
        let r := handle_verification_failure db uid v .timeout o
        (r.1, some r.2)

/-- Routing decision of `TelegramBot.handle_message`. -/
inductive MessageOutcome where
  | interactive
  | discarded_blocked
  | discarded_unverified
  | forwarded
deriving Repr, DecidableEq

/-- Embeds `TelegramBot.handle_message` (src/telegram_bot.py lines 845-882),
reduced to its routing decision: messages from a sender with pending
interactive input (`waiting_user_id`, populated only for the operator by
`_request_user_id`, line 514) are consumed by
`_handle_interactive_user_id`; a non-operator sender is then gated on the
block flag and the verified flag before `forward_message` is reached. -/
def handle_message (admin_id : Int) (waiting : List Int) (db : DBState)
    (sender : Int) : MessageOutcome :=
  if sender ∈ waiting then .interactive
  else if sender ≠ admin_id then
    if is_blocked db sender then .discarded_blocked
    else if is_verified db sender = false then .discarded_unverified
    else .forwarded
  else .forwarded

/-- Result of `TelegramBot.unban_user`. -/
inductive UnbanOutcome where
  | not_found
  | not_blocked
  | ok
deriving Repr, DecidableEq

/-- The database effect of `TelegramBot.unban_user` (src/telegram_bot.py
lines 736-843): reject an unknown user ("user not found") or one that is
not blocked ("user not blocked"); otherwise, inside one transaction,
delete the verification row, insert a fresh default row and clear the
block fields.  Unlike `Database.unblock_user`, this handler issues no
`DELETE FROM conversations`. -/
def unban_user (db : DBState) (uid : Int) (now : Nat) : DBState × UnbanOutcome :=
  match db.users uid with
  | none => (db, .not_found)
  | some u =>
      if u.is_blocked = false then (db, .not_blocked)
      else
        (clear_block (add_verification db (fresh_verification uid now)) uid, .ok)

/-- Result of the `get_chat` probe in `TelegramBot.start`
(src/telegram_bot.py line 1134): success, `Forbidden` (the user blocked
the bot) or `BadRequest` (the stored challenge message is invalid). -/
inductive ProbeResult where
  | ok
  | forbidden
  | bad_request
deriving Repr, DecidableEq

/-- Observable outcome of `TelegramBot.start`. -/
inductive StartOutcome where
  | blocked_notice
  | admin_menu
  | already_verified_msg
  | continue_prompt
  | blocked_unreachable
  | challenge_issued
  | attempts_exhausted
deriving Repr, DecidableEq

/-- Per-invocation inputs of `TelegramBot.start` /
`TelegramBot.start_verification` that come from outside the state: the
sender's profile, the wall clock, the `get_chat` probe result, the freshly
generated question, whether `send_message` delivered the challenge
(`send_ok = false` models `Forbidden`), and the id the transport assigned
to the sent challenge message. -/
structure StartOracle where
  nickname : String
  username : Option String
  now : Nat
  probe : ProbeResult
  question : String
  answer : ℚ
  options : List ℚ
  send_ok : Bool
  sent_message_id : Nat
deriving Repr

/-- Embeds `TelegramBot.start_verification` (src/telegram_bot.py lines 686-734):
with no attempt left delegate to `handle_verification_failure` with reason
"max_attempts"; otherwise stamp the generated question into the row, send
the challenge, record the outbound message id and write the row back (on
`Forbidden` the user is blocked with reason "用户禁用机器人" and nothing
is written). -/
def start_verification (db : DBState) (uid : Int) (v : VerificationRow)
    (o : StartOracle) : DBState × StartOutcome :=
  if 3 - v.error_count ≤ 0 then
    ((handle_verification_failure db uid v .max_attempts
        ⟨o.question, o.answer, o.options, o.now, true⟩).1, .attempts_exhausted)
  else
    if o.send_ok then
      (update_verification db
        { v with question := o.question, answer := o.answer, options := o.options,
                 verification_time := o.now, message_id := some o.sent_message_id },
        .challenge_issued)
    else
      (block_user db uid "用户禁用机器人" o.now, .blocked_unreachable)

/-- Embeds `TelegramBot.start` (src/telegram_bot.py lines 1065-1172): blocked
users get a notice; the operator gets the admin menu; otherwise the user
row is created on first contact, the conversation timestamp upserted, an
already verified user greeted, a pending challenge with attempts left
resumed (probing `get_chat`: `Forbidden` blocks the user, `BadRequest`
clears the stale `message_id` and falls through), and finally a missing
row is created fresh and `start_verification` runs.  Nothing in this flow
reads the `verification_enabled` setting. -/
def start (admin_id : Int) (db : DBState) (uid : Int) (o : StartOracle) :
    DBState × StartOutcome :=
  if is_blocked db uid then (db, .blocked_notice)
  else if uid = admin_id then (db, .admin_menu)
  else
    let db1 :=
      match db.users uid with
      | some _ => db
      | none => add_user db
          { user_id := uid, nickname := o.nickname, username := o.username,
            registration_time := o.now }
    let db2 := update_conversation db1 uid o.now
    if is_verified db2 uid then (db2, .already_verified_msg)
    else
      match db2.verification uid with
      | some v =>
          match v.message_id with
          | some _ =>
              if 0 < 3 - v.error_count then
                match o.probe with
                | .ok => (db2, .continue_prompt)
                | .forbidden => (block_user db2 uid "用户禁用机器人" o.now, .blocked_unreachable)
                | .bad_request =>
                    let db3 := update_verification db2 { v with message_id := none }
                    start_verification db3 uid { v with message_id := none } o
              else start_verification db2 uid v o
          | none => start_verification db2 uid v o
      | none =>
          let fresh : VerificationRow :=
            { user_id := uid, question := "", answer := 0, options := [],
              verified := false, verification_time := o.now, error_count := 0,
              message_id := none }
          start_verification (add_verification db2 fresh) uid fresh o

/-! ## Pointwise reading of the table updates -/

@[simp] theorem update_verification_users (db : DBState) (v : VerificationRow) :
    (update_verification db v).users = db.users := rfl

@[simp] theorem update_verification_conversations (db : DBState) (v : VerificationRow) :
    (update_verification db v).conversations = db.conversations := rfl

@[simp] theorem update_verification_at (db : DBState) (v : VerificationRow) (i : Int) :
    (update_verification db v).verification i =
      if i = v.user_id then (db.verification i).map (fun _ => v) else db.verification i := rfl

@[simp] theorem add_verification_users (db : DBState) (v : VerificationRow) :
    (add_verification db v).users = db.users := rfl

@[simp] theorem add_verification_conversations (db : DBState) (v : VerificationRow) :
    (add_verification db v).conversations = db.conversations := rfl

@[simp] theorem add_verification_at (db : DBState) (v : VerificationRow) (i : Int) :
    (add_verification db v).verification i =
      if i = v.user_id then some v else db.verification i := rfl

@[simp] theorem block_user_users_at (db : DBState) (uid : Int) (reason : String)
    (now : Nat) (i : Int) :
    (block_user db uid reason now).users i =
      if i = uid then
        (db.users i).map (fun u =>
          { u with is_blocked := true, block_reason := some (reason.take 255),
                   block_time := some now })
      else db.users i := rfl

@[simp] theorem block_user_verification_at (db : DBState) (uid : Int) (reason : String)
    (now : Nat) (i : Int) :
    (block_user db uid reason now).verification i =
      if i = uid then
        (db.verification i).map (fun v =>
          { v with verified := false, error_count := 0, message_id := none })
      else db.verification i := rfl

@[simp] theorem block_user_conversations (db : DBState) (uid : Int) (reason : String)
    (now : Nat) : (block_user db uid reason now).conversations = db.conversations := rfl

@[simp] theorem clear_block_users_at (db : DBState) (uid : Int) (i : Int) :
    (clear_block db uid).users i =
      if i = uid then
        (db.users i).map (fun u =>
          { u with is_blocked := false, block_reason := none, block_time := none })
      else db.users i := rfl

@[simp] theorem clear_block_verification (db : DBState) (uid : Int) :
    (clear_block db uid).verification = db.verification := rfl

@[simp] theorem clear_block_conversations (db : DBState) (uid : Int) :
    (clear_block db uid).conversations = db.conversations := rfl

@[simp] theorem delete_conversation_users (db : DBState) (uid : Int) :
    (delete_conversation db uid).users = db.users := rfl

@[simp] theorem delete_conversation_verification (db : DBState) (uid : Int) :
    (delete_conversation db uid).verification = db.verification := rfl

@[simp] theorem delete_conversation_at (db : DBState) (uid : Int) (i : Int) :
    (delete_conversation db uid).conversations i =
      if i = uid then none else db.conversations i := rfl

@[simp] theorem update_conversation_users (db : DBState) (uid : Int) (now : Nat) :
    (update_conversation db uid now).users = db.users := rfl

@[simp] theorem update_conversation_verification (db : DBState) (uid : Int) (now : Nat) :
    (update_conversation db uid now).verification = db.verification := rfl

@[simp] theorem add_user_verification (db : DBState) (u : UserRow) :
    (add_user db u).verification = db.verification := rfl

@[simp] theorem add_user_conversations (db : DBState) (u : UserRow) :
    (add_user db u).conversations = db.conversations := rfl

/-- A press on the challenge of an already verified user edits the chat
message but writes nothing and emits no success notification
(src/telegram_bot.py lines 67-74). -/
theorem handle_verification_button_already_verified
    (db : DBState) (uid : Int) (msg_id : Nat) (chosen : ℚ) (now : Nat)
    (o : FailureOracle) (v : VerificationRow)
    (hrow : db.verification uid = some v) (hver : v.verified = true) :
    handle_verification_button db uid msg_id chosen now o = (db, .already_verified) := by
  simp [handle_verification_button, hrow, hver]

/-- Concrete pending verification row used by the witnesses. -/
def sample_row (mid : Option Nat) : VerificationRow :=
  { user_id := 7, question := "q", answer := 2, options := [2, 3], verified := false,
    verification_time := 0, error_count := 0, message_id := mid }

/-- Concrete single-user store used by the witnesses. -/
def sample_db (mid : Option Nat) : DBState :=
  { users := fun i => if i = 7 then
      some { user_id := 7, nickname := "n", username := none, registration_time := 0 }
    else none,
    verification := fun i => if i = 7 then some (sample_row mid) else none,
    conversations := fun _ => none, verification_enabled := some true }

theorem sample_db_verification (mid : Option Nat) :
    (sample_db mid).verification 7 = some (sample_row mid) := by
  simp [sample_db]

/-! ## Theorems for the claims -/

/-- Claim C1: for a user with a pending challenge, submitting the correct
answer (compared as `|chosen − stored| < 1e-6`) transitions the challenge
from pending to verified and clears the stored message reference, and a
duplicate late submission afterwards is a no-op: it leaves the state
untouched and reports `already_verified` instead of a second `success`
event. -/
theorem submit_correct_verifies_then_duplicate_is_noop
    (db : DBState) (uid : Int) (v : VerificationRow) (msg_id : Nat) (chosen : ℚ)
    (now now2 : Nat) (o o2 : FailureOracle)
    (hrow : db.verification uid = some v) (hkey : v.user_id = uid)
    (hpending : v.verified = false) (hmsg : v.message_id = some msg_id)
    (hans : |v.answer - chosen| < EPS) :
    ∃ db1, handle_verification_button db uid msg_id chosen now o = (db1, .success) ∧
      db1.verification uid =
        some { v with verified := true, verification_time := now, message_id := none } ∧
      handle_verification_button db1 uid msg_id chosen now2 o2 =
        (db1, .already_verified) := by
  refine ⟨update_verification db
      { v with verified := true, verification_time := now, message_id := none },
    ?_, ?_, ?_⟩
  · simp [handle_verification_button, hrow, hpending, hmsg, hans]
  · simp [hkey, hrow]
  · have h1 : (update_verification db
        { v with verified := true, verification_time := now, message_id := none
        }).verification uid =
        some { v with verified := true, verification_time := now, message_id := none } := by
      simp [hkey, hrow]
    exact handle_verification_button_already_verified _ _ _ _ _ _ _ h1 rfl

/-- Witness for C1 at a concrete pending row. -/
theorem submit_correct_verifies_then_duplicate_is_noop_witness :
    ∃ db1, handle_verification_button (sample_db (some 11))
        7 11 2 5 ⟨"", 0, [], 5, true⟩ = (db1, .success) ∧
      db1.verification 7 =
        some { user_id := 7, question := "q", answer := 2, options := [2, 3],
               verified := true, verification_time := 5, error_count := 0,
               message_id := none } ∧
      handle_verification_button db1 7 11 2 6 ⟨"", 0, [], 6, true⟩ =
        (db1, .already_verified) :=
  submit_correct_verifies_then_duplicate_is_noop (sample_db (some 11)) 7
    (sample_row (some 11)) 11 2 5 6 ⟨"", 0, [], 5, true⟩ ⟨"", 0, [], 6, true⟩
    (sample_db_verification (some 11)) rfl rfl rfl (by norm_num [sample_row, EPS])

/-- Claim C8: a button press whose attached message id differs from the
challenge's stored outbound-message reference is rejected as an expired
challenge and the state is returned verbatim: no error-count increment, no
verified flip, no new question. -/
theorem stale_message_reference_rejected
    (db : DBState) (uid : Int) (v : VerificationRow) (msg_id : Nat) (chosen : ℚ)
    (now : Nat) (o : FailureOracle)
    (hrow : db.verification uid = some v) (hpending : v.verified = false)
    (hmsg : v.message_id ≠ some msg_id) :
    handle_verification_button db uid msg_id chosen now o = (db, .expired_message) := by
  simp [handle_verification_button, hrow, hpending, hmsg]

/-- Witness for C8: a stored reference `12` with a press attached to `11`. -/
theorem stale_message_reference_rejected_witness :
    handle_verification_button (sample_db (some 12)) 7 11 2 5 ⟨"", 0, [], 5, true⟩ =
      (sample_db (some 12), .expired_message) :=
  stale_message_reference_rejected (sample_db (some 12)) 7 (sample_row (some 12))
    11 2 5 ⟨"", 0, [], 5, true⟩ (sample_db_verification (some 12)) rfl
    (by simp [sample_row])

/-- Claim C9: a verification-answer button press by a sender whose id
differs from the challenge's user id is rejected before the
answer-checking handler runs, so the state is returned verbatim: only a
user's own presses can change their verification state. -/
theorem foreign_button_press_rejected
    (db : DBState) (presser target : Int) (msg_id : Nat) (chosen : ℚ) (now : Nat)
    (o : FailureOracle) (h : presser ≠ target) :
    button_verify db presser target msg_id chosen now o = (db, .unauthorized) := by
  simp [button_verify, h]

/-- Witness for C9: user 8 pressing user 7's verification button. -/
theorem foreign_button_press_rejected_witness :
    button_verify (sample_db (some 11)) 8 7 11 2 5 ⟨"", 0, [], 5, true⟩ =
      (sample_db (some 11), .unauthorized) :=
  foreign_button_press_rejected (sample_db (some 11)) 8 7 11 2 5
    ⟨"", 0, [], 5, true⟩ (by decide)

/-- Claim C3: for an inbound message from a non-operator sender (with the
invariant that the interactive-input map only ever holds the operator), a
blocked sender is discarded with the blocked notice and never forwarded,
an unblocked unverified sender is discarded with the verification prompt
and never forwarded, and forwarding is reached exactly for unblocked,
verified senders. -/
theorem relay_router_gating
    (admin_id sender : Int) (waiting : List Int) (db : DBState)
    (hw : ∀ w ∈ waiting, w = admin_id) (hs : sender ≠ admin_id) :
    (is_blocked db sender = true →
      handle_message admin_id waiting db sender = .discarded_blocked) ∧
    (is_blocked db sender = false → is_verified db sender = false →
      handle_message admin_id waiting db sender = .discarded_unverified) ∧
    (handle_message admin_id waiting db sender = .forwarded ↔
      is_blocked db sender = false ∧ is_verified db sender = true) := by
  have hnw : sender ∉ waiting := fun hmem => hs (hw sender hmem)
  cases hb : is_blocked db sender <;> cases hv : is_verified db sender <;>
    simp [handle_message, hnw, hs, hb, hv]

/-- Store with operator 1 and a blocked sender 2, used by the C3 witness. -/
def blocked_sender_db : DBState :=
  { users := fun i => if i = 2 then
      some { user_id := 2, nickname := "b", username := none,
             registration_time := 0, is_blocked := true,
             block_reason := some "r", block_time := some 1 }
    else none,
    verification := fun _ => none,
    conversations := fun _ => none, verification_enabled := some true }

/-- Witness for C3: operator 1 (who is the sole entry of the waiting
list), blocked non-operator sender 2. -/
theorem relay_router_gating_witness :
    (is_blocked blocked_sender_db 2 = true →
      handle_message 1 [1] blocked_sender_db 2 = .discarded_blocked) ∧
    (is_blocked blocked_sender_db 2 = false →
      is_verified blocked_sender_db 2 = false →
      handle_message 1 [1] blocked_sender_db 2 = .discarded_unverified) ∧
    (handle_message 1 [1] blocked_sender_db 2 = .forwarded ↔
      is_blocked blocked_sender_db 2 = false ∧
      is_verified blocked_sender_db 2 = true) :=
  relay_router_gating 1 2 [1] blocked_sender_db (by simp) (by decide)

theorem block_time_desc_trans (x y z : Option Nat) (hxy : block_time_desc x y = true)
    (hyz : block_time_desc y z = true) : block_time_desc x z = true := by
  cases x <;> cases y <;> cases z <;> simp_all [block_time_desc]
  all_goals omega

theorem block_time_desc_total (x y : Option Nat) :
    (block_time_desc x y || block_time_desc y x) = true := by
  cases x <;> cases y <;> simp [block_time_desc]
  all_goals omega

/-- Claim C10: the recent-verified-users query returns at most 3 rows,
each joined against a verification row with `verified = TRUE`, ordered by
verification time descending; the blacklist query returns at most 5 rows,
all with `is_blocked = TRUE`, ordered by block time descending. -/
theorem bounded_queries_spec (users : List UserRow) (verifs : List VerificationRow) :
    (get_recent_users users verifs).length ≤ 3 ∧
    (∀ u ∈ get_recent_users users verifs,
      ∃ v ∈ verifs, v.user_id = u.user_id ∧ v.verified = true) ∧
    (get_recent_users_rows users verifs).Pairwise (fun a b => b.2 ≤ a.2) ∧
    (get_blacklist users).length ≤ 5 ∧
    (∀ u ∈ get_blacklist users, u.is_blocked = true) ∧
    (get_blacklist users).Pairwise
      (fun a b => block_time_desc a.block_time b.block_time = true) := by
  refine ⟨?_, ?_, ?_, ?_, ?_, ?_⟩
  · simp only [get_recent_users, List.length_map]
    exact List.length_take_le _ _
  · intro u hu
    simp only [get_recent_users, List.mem_map] at hu
    obtain ⟨⟨u', t⟩, hmem, hfst⟩ := hu
    have hmem2 : (u', t) ∈ (users.filterMap (fun u =>
        (verifs.find? (fun v => v.user_id == u.user_id)).bind
          (fun v => if v.verified then some (u, v.verification_time) else none))) := by
      have hsub := List.take_sublist 3 ((users.filterMap (fun u =>
        (verifs.find? (fun v => v.user_id == u.user_id)).bind
          (fun v => if v.verified then some (u, v.verification_time) else none))).mergeSort
        (fun a b => decide (b.2 ≤ a.2)))
      have := hsub.mem hmem
      exact (List.mergeSort_perm _ _).mem_iff.mp this
    obtain ⟨a, _, hfa⟩ := List.mem_filterMap.mp hmem2
    cases hfind : verifs.find? (fun v => v.user_id == a.user_id) with
    | none => rw [hfind] at hfa; cases hfa
    | some v =>
        rw [hfind] at hfa
        simp only [Option.some_bind] at hfa
        by_cases hver : v.verified = true
        · rw [if_pos hver] at hfa
          simp only [Option.some.injEq, Prod.mk.injEq] at hfa
          obtain ⟨rfl, rfl⟩ := hfa
          subst hfst
          refine ⟨v, List.mem_of_find?_eq_some hfind, ?_, hver⟩
          simpa using List.find?_some hfind
        · rw [if_neg hver] at hfa
          cases hfa
  · refine List.Pairwise.sublist (List.take_sublist _ _) ?_
    have := @List.sorted_mergeSort (UserRow × Nat)
      (fun a b => decide (b.2 ≤ a.2))
      (fun a b c hab hbc => by
        simp only [decide_eq_true_eq] at *
        exact le_trans hbc hab)
      (fun a b => by
        simp only [Bool.or_eq_true, decide_eq_true_eq]
        exact le_total b.2 a.2)
      (users.filterMap (fun u =>
        (verifs.find? (fun v => v.user_id == u.user_id)).bind
          (fun v => if v.verified then some (u, v.verification_time) else none)))
    exact this.imp (fun h => by simpa using h)
  · simp only [get_blacklist]
    exact List.length_take_le _ _
  · intro u hu
    simp only [get_blacklist] at hu
    have hmem := (List.mergeSort_perm _ _).mem_iff.mp ((List.take_sublist _ _).mem hu)
    exact List.of_mem_filter hmem
  · refine List.Pairwise.sublist (List.take_sublist _ _) ?_
    exact @List.sorted_mergeSort UserRow
      (fun a b => block_time_desc a.block_time b.block_time)
      (fun a b c hab hbc => block_time_desc_trans _ _ _ hab hbc)
      (fun a b => block_time_desc_total _ _)
      (users.filter (fun u => u.is_blocked))

/-- The row `handle_verification_failure` writes back when the challenge
is reissued: incremented error count, the regenerated question, and a
fresh timestamp (src/telegram_bot.py lines 318-329). -/
def failed_row (v : VerificationRow) (n : Nat) (o : FailureOracle) : VerificationRow :=
  { v with error_count := n, question := o.new_question, answer := o.new_answer,
           options := o.new_options, verification_time := o.now }

/-- Claim C2: starting from `error_count = 0`, any three consecutive
verification failures — each a wrong answer or a timeout, in any mix (the
`reason` arguments are arbitrary), with the reissued challenge delivered
on the first two — leave the user blocked with the verification-exhausted
reason "验证失败三次" (`String.take _ 255` is the truncation `block_user`
applies; the string is shorter than 255 characters), while after only one
or two failures the user is not blocked. -/
theorem three_verification_failures_block
    (db0 : DBState) (uid : Int) (u : UserRow) (v0 : VerificationRow)
    (r1 r2 r3 : FailReason) (o1 o2 o3 : FailureOracle)
    (hu : db0.users uid = some u) (hub : u.is_blocked = false)
    (hv : db0.verification uid = some v0) (hkey : v0.user_id = uid)
    (hec : v0.error_count = 0)
    (he1 : o1.edit_ok = true) (he2 : o2.edit_ok = true) :
    ∃ db1 v1 db2 v2 db3,
      handle_verification_failure db0 uid v0 r1 o1 = (db1, .retry) ∧
      db1.verification uid = some v1 ∧ is_blocked db1 uid = false ∧
      handle_verification_failure db1 uid v1 r2 o2 = (db2, .retry) ∧
      db2.verification uid = some v2 ∧ is_blocked db2 uid = false ∧
      handle_verification_failure db2 uid v2 r3 o3 = (db3, .banned_exhausted) ∧
      is_blocked db3 uid = true ∧
      (db3.users uid).map UserRow.block_reason =
        some (some (String.take "验证失败三次" 255)) := by
  refine ⟨update_verification db0 (failed_row v0 1 o1), failed_row v0 1 o1,
    update_verification (update_verification db0 (failed_row v0 1 o1))
      (failed_row v0 2 o2),
    failed_row v0 2 o2,
    block_user (update_verification (update_verification db0 (failed_row v0 1 o1))
      (failed_row v0 2 o2)) uid "验证失败三次" o3.now,
    ?_, ?_, ?_, ?_, ?_, ?_, ?_, ?_, ?_⟩
  · simp [handle_verification_failure, failed_row, hec, he1]
  · simp [failed_row, hkey, hv]
  · simp [is_blocked, hu, hub]
  · simp [handle_verification_failure, failed_row, he2]
  · simp [failed_row, hkey, hv]
  · simp [is_blocked, hu, hub]
  · simp [handle_verification_failure, failed_row, hu, hub]
  · simp [is_blocked, hu, hub]
  · simp [hu]

/-- Witness for C2: user 7 of the sample store failing with a
wrong-answer, then a timeout, then a wrong-answer. -/
theorem three_verification_failures_block_witness :
    ∃ db1 v1 db2 v2 db3,
      handle_verification_failure (sample_db (some 11)) 7 (sample_row (some 11))
        .wrong_answer ⟨"q1", 3, [3, 4], 1, true⟩ = (db1, .retry) ∧
      db1.verification 7 = some v1 ∧ is_blocked db1 7 = false ∧
      handle_verification_failure db1 7 v1 .timeout ⟨"q2", 4, [4, 5], 2, true⟩ =
        (db2, .retry) ∧
      db2.verification 7 = some v2 ∧ is_blocked db2 7 = false ∧
      handle_verification_failure db2 7 v2 .wrong_answer ⟨"q3", 5, [5, 6], 3, true⟩ =
        (db3, .banned_exhausted) ∧
      is_blocked db3 7 = true ∧
      (db3.users 7).map UserRow.block_reason =
        some (some (String.take "验证失败三次" 255)) :=
  three_verification_failures_block (sample_db (some 11)) 7
    { user_id := 7, nickname := "n", username := none, registration_time := 0 }
    (sample_row (some 11)) .wrong_answer .timeout .wrong_answer
    ⟨"q1", 3, [3, 4], 1, true⟩ ⟨"q2", 4, [4, 5], 2, true⟩ ⟨"q3", 5, [5, 6], 3, true⟩
    (by simp [sample_db]) rfl (sample_db_verification (some 11)) rfl rfl rfl rfl

/-- Claim C4 (amended): ban followed by unban restores a fresh
pending-eligible verification state — `verified = false`,
`error_count = 0`, no message reference, block fields cleared — but the
bot's unban handler (`TelegramBot.unban_user`, the one reachable from the
`/unban` command and the unban button) leaves the conversation-history row
untouched; the conversation row is deleted only by the unused
`Database.unblock_user` variant. -/
theorem ban_then_unban_restores_fresh_state
    (db : DBState) (uid : Int) (u : UserRow) (reason : String) (now1 now2 : Nat)
    (hu : db.users uid = some u) :
    ∃ db', unban_user (block_user db uid reason now1) uid now2 = (db', .ok) ∧
      db'.verification uid = some (fresh_verification uid now2) ∧
      is_verified db' uid = false ∧
      is_blocked db' uid = false ∧
      (db'.users uid).map UserRow.block_reason = some none ∧
      (db'.users uid).map UserRow.block_time = some none ∧
      db'.conversations uid = db.conversations uid ∧
      ∃ db'', unblock_user (block_user db uid reason now1) uid now2 = some db'' ∧
        db''.verification uid = some (fresh_verification uid now2) ∧
        is_blocked db'' uid = false ∧
        db''.conversations uid = none := by
  refine ⟨clear_block (add_verification (block_user db uid reason now1)
      (fresh_verification uid now2)) uid, ?_, ?_, ?_, ?_, ?_, ?_, ?_,
    delete_conversation (clear_block (add_verification (block_user db uid reason now1)
      (fresh_verification uid now2)) uid) uid, ?_, ?_, ?_, ?_⟩
  · simp [unban_user, hu]
  · simp [fresh_verification]
  · simp [is_verified, fresh_verification]
  · simp [is_blocked, hu]
  · simp [hu]
  · simp [hu]
  · rfl
  · simp [unblock_user, hu]
  · simp [fresh_verification]
  · simp [is_blocked, hu]
  · simp

/-- Witness for C4 at the sample store. -/
theorem ban_then_unban_restores_fresh_state_witness :
    ∃ db', unban_user (block_user (sample_db (some 11)) 7 "管理员操作" 5) 7 6 =
        (db', .ok) ∧
      db'.verification 7 = some (fresh_verification 7 6) ∧
      is_verified db' 7 = false ∧
      is_blocked db' 7 = false ∧
      (db'.users 7).map UserRow.block_reason = some none ∧
      (db'.users 7).map UserRow.block_time = some none ∧
      db'.conversations 7 = (sample_db (some 11)).conversations 7 ∧
      ∃ db'', unblock_user (block_user (sample_db (some 11)) 7 "管理员操作" 5) 7 6 =
          some db'' ∧
        db''.verification 7 = some (fresh_verification 7 6) ∧
        is_blocked db'' 7 = false ∧
        db''.conversations 7 = none :=
  ban_then_unban_restores_fresh_state (sample_db (some 11)) 7
    { user_id := 7, nickname := "n", username := none, registration_time := 0 }
    "管理员操作" 5 6 (by simp [sample_db])

/-- Store with one unbanned user 1 who has a conversation row, used to
refute the conversation-history part of claim C4. -/
def convo_db : DBState :=
  { users := fun i => if i = 1 then
      some { user_id := 1, nickname := "a", username := none, registration_time := 0 }
    else none,
    verification := fun _ => none,
    conversations := fun i => if i = 1 then some 10 else none,
    verification_enabled := some true }

/-- Counterexample to claim C4 as stated: banning user 1 and then
unbanning through the bot's unban handler leaves the user's
conversation-history row in place (`some 10`), so "no conversation-history
row remains" fails on the code path the unban command executes. -/
theorem ban_then_unban_keeps_conversation_row :
    (unban_user (block_user convo_db 1 "管理员操作" 5) 1 6).2 = .ok ∧
    (unban_user (block_user convo_db 1 "管理员操作" 5) 1 6).1.conversations 1 =
      some 10 := by
  constructor
  · simp [unban_user, block_user, convo_db]
  · simp [unban_user, block_user, convo_db]

/-- Claim C5 (amended): `start` never consults the stored
`verification_enabled` setting (`Database.get_verification_enabled` has no
caller).  For every value `b` of the setting, starting contact with an
unblocked non-operator user that has no verification row generates and
delivers a challenge — the row is written with the generated question and
the outbound message id — the user is not verified afterwards, and the
user's next message is still discarded with the verification prompt. -/
theorem start_ignores_verification_setting
    (admin_id : Int) (db : DBState) (uid : Int) (o : StartOracle) (b : Option Bool)
    (hadmin : uid ≠ admin_id) (hnb : is_blocked db uid = false)
    (hrow : db.verification uid = none) (hsend : o.send_ok = true) :
    (start admin_id { db with verification_enabled := b } uid o).2 =
      .challenge_issued ∧
    (start admin_id { db with verification_enabled := b } uid o).1.verification uid =
      some { user_id := uid, question := o.question, answer := o.answer,
             options := o.options, verified := false, verification_time := o.now,
             error_count := 0, message_id := some o.sent_message_id } ∧
    is_verified (start admin_id { db with verification_enabled := b } uid o).1 uid =
      false ∧
    handle_message admin_id []
      (start admin_id { db with verification_enabled := b } uid o).1 uid =
      .discarded_unverified := by
  have hnb' : is_blocked { db with verification_enabled := b } uid = false := hnb
  cases hus : db.users uid with
  | none =>
      refine ⟨?_, ?_, ?_, ?_⟩ <;>
        simp [start, start_verification, hadmin, hus, hrow, hsend,
          is_verified, is_blocked, handle_message, add_user, update_conversation]
  | some u =>
      have hub : u.is_blocked = false := by
        have := hnb
        simp [is_blocked, hus] at this
        exact this
      refine ⟨?_, ?_, ?_, ?_⟩ <;>
        simp [start, start_verification, hnb', hadmin, hus, hrow, hsend,
          is_verified, is_blocked, handle_message, update_conversation, hub]

/-- Store whose `verification_enabled` setting is `FALSE`, holding the
unverified, unblocked user 5 with no verification row. -/
def disabled_db : DBState :=
  { users := fun i => if i = 5 then
      some { user_id := 5, nickname := "c", username := none, registration_time := 0 }
    else none,
    verification := fun _ => none,
    conversations := fun _ => none,
    verification_enabled := some false }

/-- Oracle for the C5 scenario: the probe and the challenge delivery
succeed and the challenge message gets id 21. -/
def start_oracle_ex : StartOracle :=
  { nickname := "c", username := none, now := 3, probe := .ok, question := "q",
    answer := 2, options := [2, 3], send_ok := true, sent_message_id := 21 }

/-- Counterexample to claim C5 as stated: with the verification-enabled
setting stored as `FALSE`, `start` for the unverified user 5 still issues
a challenge, the user is not treated as verified, and the user's next
message is discarded with the verification prompt rather than authorized. -/
theorem start_with_verification_disabled_still_challenges :
    get_verification_enabled disabled_db = false ∧
    (start 1 disabled_db 5 start_oracle_ex).2 = .challenge_issued ∧
    is_verified (start 1 disabled_db 5 start_oracle_ex).1 5 = false ∧
    handle_message 1 [] (start 1 disabled_db 5 start_oracle_ex).1 5 =
      .discarded_unverified := by
  refine ⟨rfl, ?_, ?_, ?_⟩ <;>
    simp [start, start_verification, disabled_db, start_oracle_ex, is_blocked,
      is_verified, handle_message, update_conversation]

/-- Witness for the amended C5, instantiated with the setting explicitly
forced to `FALSE`. -/
theorem start_ignores_verification_setting_witness :
    (start 1 { disabled_db with verification_enabled := some false } 5
        start_oracle_ex).2 = .challenge_issued ∧
    (start 1 { disabled_db with verification_enabled := some false } 5
        start_oracle_ex).1.verification 5 =
      some { user_id := 5, question := "q", answer := 2, options := [2, 3],
             verified := false, verification_time := 3, error_count := 0,
             message_id := some 21 } ∧
    is_verified (start 1 { disabled_db with verification_enabled := some false } 5
        start_oracle_ex).1 5 = false ∧
    handle_message 1 []
      (start 1 { disabled_db with verification_enabled := some false } 5
        start_oracle_ex).1 5 = .discarded_unverified :=
  start_ignores_verification_setting 1 disabled_db 5 start_oracle_ex (some false)
    (by decide) (by simp [is_blocked, disabled_db]) (by simp [disabled_db]) rfl

theorem round2_eval (x : ℚ) (n : ℤ) (h : x * 100 = (n : ℚ)) :
    round2 x = (n : ℚ) / 100 := by
  unfold round2
  rw [h, round_intCast]

theorem accept_option_iff (answer : ℚ) (os : List ℚ) (w : ℚ) :
    accept_option answer os w = true ↔
      w ∉ os ∧ MIN_OPTION_DIFF ≤ |w - answer| ∧
        MIN_ANSWER ≤ |w| ∧ |w| ≤ MAX_ANSWER := by
  simp [accept_option, and_assoc]

/-- Concrete run of `_generate_options` for answer 1 with offset draws
0.6, 0.55, −0.6: all three candidates are accepted, the first two being
only 0.05 apart. -/
theorem generate_options_eval :
    generate_options 1 [3/5, 11/20, -(3/5)] = some [1, 8/5, 31/20, 2/5] := by
  have r1 : round2 ((1 : ℚ) + 3/5) = 8/5 := by
    rw [round2_eval ((1 : ℚ) + 3/5) 160 (by norm_num)]
    norm_num
  have r2 : round2 ((1 : ℚ) + 11/20) = 31/20 := by
    rw [round2_eval ((1 : ℚ) + 11/20) 155 (by norm_num)]
    norm_num
  have r3 : round2 ((1 : ℚ) + -(3/5)) = 2/5 := by
    rw [round2_eval ((1 : ℚ) + -(3/5)) 40 (by norm_num)]
    norm_num
  have a1 : accept_option 1 [1] (8/5) = true := by
    rw [accept_option_iff]
    norm_num [MIN_OPTION_DIFF, MIN_ANSWER, MAX_ANSWER, abs, max_def]
  have a2 : accept_option 1 [1, 8/5] (31/20) = true := by
    rw [accept_option_iff]
    norm_num [MIN_OPTION_DIFF, MIN_ANSWER, MAX_ANSWER, abs, max_def]
  have a3 : accept_option 1 [1, 8/5, 31/20] (2/5) = true := by
    rw [accept_option_iff]
    norm_num [MIN_OPTION_DIFF, MIN_ANSWER, MAX_ANSWER, abs, max_def]
  simp [generate_options, generate_options_loop, OPTION_COUNT, r1, r2, r3, a1, a2, a3]

/-- Concrete successful draw of `generate_question` built on
`generate_options_eval`. -/
theorem generate_question_eval :
    generate_question [some ⟨"q", 1, [3/5, 11/20, -(3/5)]⟩] =
      some ("q", 1, [1, 8/5, 31/20, 2/5]) := by
  show generate_question_loop (99 + 1) [some ⟨"q", 1, [3/5, 11/20, -(3/5)]⟩] =
    some ("q", 1, [1, 8/5, 31/20, 2/5])
  rw [generate_question_loop]
  dsimp only
  rw [if_neg (by norm_num [MAX_ANSWER, MIN_ANSWER, abs, max_def])]
  rw [generate_options_eval]

/-- Claim C6: every successful draw of `generate_question` (one that
returns within the retry budget) yields four options of which exactly one
lies within `1e-6` of the computed answer, all four pairwise distinct with
magnitude in `[0.01, 100]`; stated for every permutation `l` of the
returned list, covering the final shuffle. -/
theorem generate_question_options_spec
    (attempts : List (Option QuestionDraw)) (q : String) (ans : ℚ)
    (opts l : List ℚ) (h : generate_question attempts = some (q, ans, opts))
    (hperm : l.Perm opts) :
    l.length = 4 ∧
    (l.filter (fun x => decide (|x - ans| < EPS))).length = 1 ∧
    l.Nodup ∧
    ∀ x ∈ l, MIN_ANSWER ≤ |x| ∧ |x| ≤ MAX_ANSWER := by
  obtain ⟨hrange, offsets, hgen⟩ :=
    generate_question_loop_spec MAX_RETRIES attempts q ans opts h
  obtain ⟨hinv, hlen⟩ := generate_options_spec hrange hgen
  have hfilter := optionsInv_filter_eps hinv
  obtain ⟨hnd, hmem, hfar, hbounds⟩ := hinv
  refine ⟨?_, ?_, ?_, ?_⟩
  · rw [hperm.length_eq, hlen]
    rfl
  · rw [(hperm.filter _).length_eq, hfilter]
  · exact hperm.nodup_iff.mpr hnd
  · intro x hx
    exact hbounds x (hperm.mem_iff.mp hx)

/-- Witness for C6 at the concrete draw of `generate_question_eval`. -/
theorem generate_question_options_spec_witness :
    ([(1 : ℚ), 8/5, 31/20, 2/5]).length = 4 ∧
    (([(1 : ℚ), 8/5, 31/20, 2/5]).filter
      (fun x => decide (|x - 1| < EPS))).length = 1 ∧
    ([(1 : ℚ), 8/5, 31/20, 2/5]).Nodup ∧
    ∀ x ∈ [(1 : ℚ), 8/5, 31/20, 2/5], MIN_ANSWER ≤ |x| ∧ |x| ≤ MAX_ANSWER :=
  generate_question_options_spec [some ⟨"q", 1, [3/5, 11/20, -(3/5)]⟩] "q" 1
    [1, 8/5, 31/20, 2/5] [1, 8/5, 31/20, 2/5] generate_question_eval
    (List.Perm.refl _)

/-- Counterexample to claim C7 as stated: for answer 1 and offset draws
0.6, 0.55, −0.6 the returned option list contains the two distractors 1.6
and 1.55, which differ by only 0.05 < 0.1; the acceptance test compares a
candidate against the answer only, never against the other options already
drawn. -/
theorem distractors_within_min_gap_counterexample :
    generate_options 1 [3/5, 11/20, -(3/5)] = some [1, 8/5, 31/20, 2/5] ∧
    (8/5 : ℚ) ∈ [(1 : ℚ), 8/5, 31/20, 2/5] ∧
    (31/20 : ℚ) ∈ [(1 : ℚ), 8/5, 31/20, 2/5] ∧
    (8/5 : ℚ) ≠ 31/20 ∧
    |(8/5 : ℚ) - 31/20| < MIN_OPTION_DIFF :=
  ⟨generate_options_eval, by norm_num, by norm_num, by norm_num,
    by norm_num [MIN_OPTION_DIFF, abs, max_def]⟩

/-- Claim C7 (amended): a candidate value is accepted exactly when it is
not already present, differs from the correct answer by at least 0.1, and
has magnitude in [0.01, 100]; consequently in every returned option list
(under any final shuffle) the options are pairwise distinct and every
distractor is at least 0.1 away from the answer — but two distractors may
lie within 0.1 of each other. -/
theorem distractor_acceptance_spec
    (answer : ℚ) (draws opts l : List ℚ)
    (hans : MIN_ANSWER ≤ |answer| ∧ |answer| ≤ MAX_ANSWER)
    (hgen : generate_options answer draws = some opts) (hperm : l.Perm opts) :
    (∀ os w, accept_option answer os w = true ↔
      (w ∉ os ∧ MIN_OPTION_DIFF ≤ |w - answer| ∧
        MIN_ANSWER ≤ |w| ∧ |w| ≤ MAX_ANSWER)) ∧
    l.Nodup ∧ l.length = 4 ∧
    (∀ x ∈ l, x = answer ∨ MIN_OPTION_DIFF ≤ |x - answer|) := by
  obtain ⟨hinv, hlen⟩ := generate_options_spec hans hgen
  obtain ⟨hnd, hmem, hfar, hbounds⟩ := hinv
  refine ⟨accept_option_iff answer, hperm.nodup_iff.mpr hnd, ?_, ?_⟩
  · rw [hperm.length_eq, hlen]
    rfl
  · intro x hx
    exact hfar x (hperm.mem_iff.mp hx)

/-- Witness for the amended C7 at the concrete draw of
`generate_options_eval`. -/
theorem distractor_acceptance_spec_witness :
    (∀ os w, accept_option 1 os w = true ↔
      (w ∉ os ∧ MIN_OPTION_DIFF ≤ |w - 1| ∧
        MIN_ANSWER ≤ |w| ∧ |w| ≤ MAX_ANSWER)) ∧
    ([(1 : ℚ), 8/5, 31/20, 2/5]).Nodup ∧
    ([(1 : ℚ), 8/5, 31/20, 2/5]).length = 4 ∧
    (∀ x ∈ [(1 : ℚ), 8/5, 31/20, 2/5],
      x = 1 ∨ MIN_OPTION_DIFF ≤ |x - 1|) :=
  distractor_acceptance_spec 1 [3/5, 11/20, -(3/5)] [1, 8/5, 31/20, 2/5]
    [1, 8/5, 31/20, 2/5]
    (by norm_num [MIN_ANSWER, MAX_ANSWER, abs, max_def])
    generate_options_eval (List.Perm.refl _)

end ChatBot
